import Mathlib

/-!
Verification of the universal module generator (`scripts/module-generator.py`).

Python strings are modelled as lists of Unicode code points (`List Nat`);
`toL` converts a Lean string literal to that representation.  The generator
only ever manipulates ASCII text, and the Python string methods used by the
source (`lower`, `capitalize`, `strip`, `rstrip`, `split`, `replace`,
`endswith`, `startswith`) are embedded below restricted to ASCII, which is
faithful on every input the claims range over.
-/

namespace ModuleGenerator

/-- A Python string, as its list of code points. -/
abbrev PyStr := List Nat

/-- Code point of a character literal (for readability of the embedding). -/
def ch (c : Char) : Nat := c.toNat

/-- Convert a Lean string literal into the `PyStr` model. -/
def toL (s : String) : PyStr := s.data.map Char.toNat

/-- ASCII model of lower-casing one code point (Python `str.lower`). -/
def lowerChar (c : Nat) : Nat := if 65 ≤ c ∧ c ≤ 90 then c + 32 else c

/-- ASCII model of upper-casing one code point (Python `str.upper`). -/
def upperChar (c : Nat) : Nat := if 97 ≤ c ∧ c ≤ 122 then c - 32 else c

/-- Python `str.lower` (ASCII). -/
def pyLower (s : PyStr) : PyStr := s.map lowerChar

/-- Python whitespace characters stripped by `str.strip()`. -/
def isPySpace (c : Nat) : Bool := c = 32 ∨ c = 9 ∨ c = 10 ∨ c = 13 ∨ c = 11 ∨ c = 12

/-- Python `str.strip()`: drop leading and trailing whitespace. -/
def pyStrip (s : PyStr) : PyStr :=
  ((s.dropWhile isPySpace).reverse.dropWhile isPySpace).reverse

/-- Python `str.rstrip(c)`: drop every trailing occurrence of `c`. -/
def pyRstrip (c : Nat) (s : PyStr) : PyStr :=
  (s.reverse.dropWhile (fun d => d == c)).reverse

/-- Python `str.replace(a, b)` for single characters. -/
def pyReplace (a b : Nat) (s : PyStr) : PyStr :=
  s.map (fun c => if c = a then b else c)

/-- Python `str.split(sep)` for a single-character separator: keeps empty
chunks, `"".split(sep) = [""]`. -/
def pySplit (sep : Nat) : PyStr → List PyStr
  | [] => [[]]
  | c :: cs =>
      let r := pySplit sep cs
      if c = sep then [] :: r
      else (c :: r.headI) :: r.tail

/-- Python `str.endswith(suffix)`. -/
def pyEndsWith (suffix s : PyStr) : Bool := suffix.isSuffixOf s

/-- Python `str.capitalize()`: first character upper-cased, every remaining
character lower-cased. -/
def pyCapitalize : PyStr → PyStr
  | [] => []
  | c :: cs => upperChar c :: cs.map lowerChar

/-- `BaseGenerator.to_pascal_case` (module-generator.py:41-43):
the join of `word.capitalize()` over `name.replace('-', '_').split('_')`. -/
def to_pascal_case (name : PyStr) : PyStr :=
  ((pySplit (ch '_') (pyReplace (ch '-') (ch '_') name)).map pyCapitalize).flatten

/-- `BaseGenerator.to_camel_case` (module-generator.py:45-48). -/
def to_camel_case (name : PyStr) : PyStr :=
  match pySplit (ch '_') (pyReplace (ch '-') (ch '_') name) with
  | [] => []
  | w :: ws => pyLower w ++ (ws.map pyCapitalize).flatten

/-- `BaseGenerator.to_snake_case` (module-generator.py:50-52). -/
def to_snake_case (name : PyStr) : PyStr :=
  pyReplace (ch '-') (ch '_') (pyLower name)

/-- `BaseGenerator.to_kebab_case` (module-generator.py:54-56). -/
def to_kebab_case (name : PyStr) : PyStr :=
  pyReplace (ch '_') (ch '-') (pyLower name)

/-- `BaseGenerator.pluralize` (module-generator.py:58-64). -/
def pluralize (name : PyStr) : PyStr :=
  if pyEndsWith (toL "y") name then name.dropLast ++ toL "ies"
  else if pyEndsWith (toL "s") name ∨ pyEndsWith (toL "x") name ∨
      pyEndsWith (toL "ch") name ∨ pyEndsWith (toL "sh") name then name ++ toL "es"
  else name ++ toL "s"

/-- One parsed field: `(name, type, required)` tuple of the Python code. -/
structure FieldDesc where
  name : PyStr
  ty : PyStr
  required : Bool
deriving DecidableEq

/-- Break a string at the first occurrence of `sep`: Python
`field.split(sep, 1)` guarded by `sep in field` (`none` when absent). -/
def breakAtFirst (sep : Nat) : PyStr → PyStr × Option PyStr
  | [] => ([], none)
  | c :: cs =>
      if c = sep then ([], some cs)
      else
        let r := breakAtFirst sep cs
        (c :: r.1, r.2)

/-- The per-token body of `parse_fields` (module-generator.py:91-101):
strip the token, skip it when empty, record `required` from a trailing `?`,
strip the `?` marker, split at the first `:` into name and type (the type
defaults to the stack's default spelling when no `:` is present), and strip
name and type. -/
def parseFieldToken (default : PyStr) (tok : PyStr) : Option FieldDesc :=
  let field := pyStrip tok
  if field = [] then none
  else
    let required := ! pyEndsWith (toL "?") field
    let field := pyRstrip (ch '?') field
    match breakAtFirst (ch ':') field with
    | (n, some t) => some ⟨pyStrip n, pyStrip t, required⟩
    | (n, none) => some ⟨pyStrip n, pyStrip default, required⟩

/-- `parse_fields` (module-generator.py:89-102, identical in every generator
class up to the stack's default type spelling passed as `default`):
split on commas and parse each token, skipping empty ones. -/
def parse_fields (default : PyStr) (fields_str : PyStr) : List FieldDesc :=
  (pySplit (ch ',') fields_str).filterMap (parseFieldToken default)

/-- Default type spelling of the Go, Laravel and React parsers
(module-generator.py:100,532,823). -/
def defaultTypeGo : PyStr := toL "string"

/-- Default type spelling of the Flutter parser (module-generator.py:1079). -/
def defaultTypeFlutter : PyStr := toL "String"

/-- `GoGenerator._gorm_type`'s table (module-generator.py:105-112). -/
def gormTypeMap : List (PyStr × PyStr) :=
  [(toL "string", toL "varchar(255)"), (toL "*string", toL "varchar(255)"),
   (toL "int", toL "int"), (toL "int32", toL "int"), (toL "int64", toL "bigint"),
   (toL "*int", toL "int"), (toL "*int64", toL "bigint"),
   (toL "float32", toL "float"), (toL "float64", toL "double"),
   (toL "bool", toL "boolean"), (toL "*bool", toL "boolean"),
   (toL "time.Time", toL "datetime")]

/-- `GoGenerator._gorm_type` (module-generator.py:104-113): dictionary lookup
with default `varchar(255)` (`type_map.get(go_type, 'varchar(255)')`). -/
def gorm_type (go_type : PyStr) : PyStr :=
  ((gormTypeMap.find? (fun p => p.1 == go_type)).map Prod.snd).getD (toL "varchar(255)")

/-- `LaravelGenerator._migration_type`'s table (module-generator.py:537-542). -/
def migrationTypeMap : List (PyStr × PyStr) :=
  [(toL "string", toL "string"), (toL "text", toL "text"),
   (toL "integer", toL "integer"), (toL "bigInteger", toL "bigInteger"),
   (toL "float", toL "float"), (toL "double", toL "double"),
   (toL "decimal", toL "decimal"), (toL "boolean", toL "boolean"),
   (toL "date", toL "date"), (toL "datetime", toL "dateTime"),
   (toL "timestamp", toL "timestamp"), (toL "json", toL "json")]

/-- `LaravelGenerator._migration_type` (module-generator.py:536-543):
dictionary lookup with default `string`. -/
def migration_type (php_type : PyStr) : PyStr :=
  ((migrationTypeMap.find? (fun p => p.1 == php_type)).map Prod.snd).getD (toL "string")

/-- The search field of the generated Go list usecase (module-generator.py:257):
`next((n for n, t, _ in self.fields if t == 'string' and not n.endswith('_id')), 'name')`. -/
def goSearchField (fields : List FieldDesc) : PyStr :=
  match fields.find? (fun f => f.ty == toL "string" && ! pyEndsWith (toL "_id") f.name) with
  | some f => f.name
  | none => toL "name"

/-- The search column of the generated Laravel controller
(module-generator.py:666-670): the template interpolates no field name into
the `where` clause; the emitted query always filters on the literal column
`name`, whatever fields were parsed. -/
def laravelSearchColumn (_fields : List FieldDesc) : PyStr := toL "name"

/-- `totalPages` of the generated `To...ListResponse` (module-generator.py:248-251):
Go code `totalPages := int(total) / perPage` then `totalPages++` when
`int(total) % perPage > 0`, with Go's truncated division and remainder. -/
def goTotalPages (total perPage : Int) : Int :=
  let tp := Int.tdiv total perPage
  if Int.tmod total perPage > 0 then tp + 1 else tp

/-- Page default of the generated list operation (module-generator.py:331,422):
`if page < 1 \x7b page = 1 \x7d`. -/
def goPageDefault (page : Int) : Int := if page < 1 then 1 else page

/-- Page-size default of the generated list operation
(module-generator.py:332,423): `if perPage < 1 \x7b perPage = 20 \x7d`. -/
def goPerPageDefault (perPage : Int) : Int := if perPage < 1 then 20 else perPage

/-- `BaseGenerator.__init__` (module-generator.py:34):
`self.module_name = name.lower()`. -/
def moduleNameOf (name : PyStr) : PyStr := pyLower name

/-- `BaseGenerator.__init__` (module-generator.py:35):
`self.entity_name = self.to_pascal_case(name)`. -/
def entityNameOf (name : PyStr) : PyStr := to_pascal_case name

/-- Route segment of the Go `init.go` template (module-generator.py:429):
`route = self.to_kebab_case(self.pluralize(self.module_name))`. -/
def goRouteSeg (module_name : PyStr) : PyStr := to_kebab_case (pluralize module_name)

/-- Route segment of the React `api.ts` template (module-generator.py:903). -/
def reactRouteSeg (module_name : PyStr) : PyStr := to_kebab_case (pluralize module_name)

/-- Route segment of the Flutter repository template (module-generator.py:1160). -/
def flutterRouteSeg (module_name : PyStr) : PyStr := to_kebab_case (pluralize module_name)

/-- Go collection route (module-generator.py:445): the group path `/{route}`. -/
def goCollectionPath (m : PyStr) : PyStr := toL "/" ++ goRouteSeg m

/-- Go single-resource route (module-generator.py:450-452): the group's
routes registered under the `/:id` placeholder. -/
def goResourcePath (m : PyStr) : PyStr := goCollectionPath m ++ toL "/:id"

/-- React `BASE_URL` (module-generator.py:913): `/{route}`. -/
def reactBaseURL (m : PyStr) : PyStr := toL "/" ++ reactRouteSeg m

/-- React single-resource request path (module-generator.py:920,926,929):
the template string BASE_URL/id. -/
def reactResourcePath (m id : PyStr) : PyStr := reactBaseURL m ++ toL "/" ++ id

/-- Flutter collection request path (module-generator.py:1170,1181). -/
def flutterCollectionPath (m : PyStr) : PyStr := toL "/" ++ flutterRouteSeg m

/-- Flutter single-resource request path (module-generator.py:1176,1186,1191). -/
def flutterResourcePath (m id : PyStr) : PyStr := flutterCollectionPath m ++ toL "/" ++ id

/-- Python `str.startswith(c)` for a single character. -/
def pyStartsWith (c : Nat) : PyStr → Bool
  | [] => false
  | d :: _ => d == c

/-- Python `str.lstrip(c)`: drop every leading occurrence of `c`. -/
def pyLstrip (c : Nat) (s : PyStr) : PyStr := s.dropWhile (fun d => d == c)

/-- One field line of the Go model struct (module-generator.py:159-162). -/
def goModelFieldLine (f : FieldDesc) : PyStr :=
  toL "\t" ++ to_pascal_case f.name ++ toL " " ++
    (if f.required || pyStartsWith (ch '*') f.ty then f.ty else toL "*" ++ f.ty) ++
    toL " `gorm:\"type:" ++ gorm_type f.ty ++ toL "\" json:\"" ++ f.name ++ toL "\"`"

/-- Field lines of the Go model struct, in `self.fields` order
(the comprehension at module-generator.py:159-162). -/
def goModelFieldLines (fields : List FieldDesc) : List PyStr :=
  fields.map goModelFieldLine

/-- One field line of the Go create-request DTO (module-generator.py:190-191). -/
def goCreateFieldLine (f : FieldDesc) : PyStr :=
  toL "\t" ++ to_pascal_case f.name ++ toL " " ++ f.ty ++
    toL " `json:\"" ++ f.name ++ toL "\" binding:\"" ++
    (if f.required then toL "required" else toL "omitempty") ++ toL "\"`"

/-- Field lines of the Go create-request DTO (module-generator.py:189-192). -/
def goCreateFieldLines (fields : List FieldDesc) : List PyStr :=
  fields.map goCreateFieldLine

/-- One field line of the Go update-request DTO (module-generator.py:194-195). -/
def goUpdateFieldLine (f : FieldDesc) : PyStr :=
  toL "\t" ++ to_pascal_case f.name ++ toL " *" ++ pyLstrip (ch '*') f.ty ++
    toL " `json:\"" ++ f.name ++ toL "\"`"

/-- Field lines of the Go update-request DTO (module-generator.py:193-196). -/
def goUpdateFieldLines (fields : List FieldDesc) : List PyStr :=
  fields.map goUpdateFieldLine

/-- One field line of the Go response DTO (module-generator.py:198-199). -/
def goResponseFieldLine (f : FieldDesc) : PyStr :=
  toL "\t" ++ to_pascal_case f.name ++ toL " " ++
    (if f.required || pyStartsWith (ch '*') f.ty then f.ty else toL "*" ++ f.ty) ++
    toL " `json:\"" ++ f.name ++ toL "\"`"

/-- Field lines of the Go response DTO (module-generator.py:197-200). -/
def goResponseFieldLines (fields : List FieldDesc) : List PyStr :=
  fields.map goResponseFieldLine

/-- One `$fillable` entry of the Laravel model (module-generator.py:595). -/
def laravelFillableItem (f : FieldDesc) : PyStr :=
  toL "\x27" ++ f.name ++ toL "\x27"

/-- `$fillable` entries of the Laravel model, in order (module-generator.py:595). -/
def laravelFillableItems (fields : List FieldDesc) : List PyStr :=
  fields.map laravelFillableItem

/-- One column line of the Laravel migration (module-generator.py:618-621). -/
def laravelMigrationColumnLine (f : FieldDesc) : PyStr :=
  toL "            $table->" ++ migration_type f.ty ++ toL "(\x27" ++ f.name ++
    toL "\x27)" ++ (if f.required then toL "" else toL "->nullable()") ++ toL ";"

/-- Column lines of the Laravel migration (module-generator.py:618-621). -/
def laravelMigrationColumnLines (fields : List FieldDesc) : List PyStr :=
  fields.map laravelMigrationColumnLine

/-- One validation-rule line of the Laravel form request
(module-generator.py:704-706). -/
def laravelRuleLine (f : FieldDesc) : PyStr :=
  toL "            \x27" ++ f.name ++ toL "\x27 => [\x27" ++
    (if f.required then toL "required" else toL "nullable") ++
    toL "\x27, \x27" ++ f.ty ++ toL "\x27],"

/-- Validation-rule lines of the Laravel form request (module-generator.py:704-707). -/
def laravelRuleLines (fields : List FieldDesc) : List PyStr :=
  fields.map laravelRuleLine

/-- One field line of the Laravel resource (module-generator.py:732). -/
def laravelResourceLine (f : FieldDesc) : PyStr :=
  toL "            \x27" ++ f.name ++ toL "\x27 => $this->" ++ f.name ++ toL ","

/-- Field lines of the Laravel resource (module-generator.py:732). -/
def laravelResourceLines (fields : List FieldDesc) : List PyStr :=
  fields.map laravelResourceLine

/-- One field line of the React entity interface (module-generator.py:868);
the create-request comprehension at line 869 is textually identical. -/
def reactTypeFieldLine (f : FieldDesc) : PyStr :=
  toL "  " ++ f.name ++ (if f.required then toL "" else toL "?") ++
    toL ": " ++ f.ty ++ toL ";"

/-- Field lines of the React entity interface (module-generator.py:868). -/
def reactTypeFieldLines (fields : List FieldDesc) : List PyStr :=
  fields.map reactTypeFieldLine

/-- Field lines of the React create-request interface (module-generator.py:869). -/
def reactCreateFieldLines (fields : List FieldDesc) : List PyStr :=
  fields.map reactTypeFieldLine

/-- One field line of the React update-request interface (module-generator.py:870). -/
def reactUpdateFieldLine (f : FieldDesc) : PyStr :=
  toL "  " ++ f.name ++ toL "?: " ++ f.ty ++ toL ";"

/-- Field lines of the React update-request interface (module-generator.py:870). -/
def reactUpdateFieldLines (fields : List FieldDesc) : List PyStr :=
  fields.map reactUpdateFieldLine

/-- One `<input>` block of the React form component (module-generator.py:1020-1024). -/
def reactFormInputBlock (f : FieldDesc) : PyStr :=
  toL "      <input\n        name=\"" ++ f.name ++
    toL "\"\n        placeholder=\"" ++ to_pascal_case f.name ++
    toL "\"\n        " ++ (if f.required then toL "required" else toL "") ++
    toL "\n      />"

/-- `<input>` blocks of the React form component (module-generator.py:1019-1026). -/
def reactFormInputBlocks (fields : List FieldDesc) : List PyStr :=
  fields.map reactFormInputBlock

/-- One field line of the Flutter model (module-generator.py:1114-1117). -/
def flutterModelFieldLine (f : FieldDesc) : PyStr :=
  toL "  final " ++ f.ty ++ (if f.required then toL "" else toL "?") ++
    toL " " ++ to_camel_case f.name ++ toL ";"

/-- Field lines of the Flutter model (module-generator.py:1114-1117). -/
def flutterModelFieldLines (fields : List FieldDesc) : List PyStr :=
  fields.map flutterModelFieldLine

/-- Paths of the files written by `GoGenerator.generate`
(module-generator.py:115-156), relative to the output directory; the
validators artifact is appended only under the `validators` option. -/
def goArtifactPaths (m : PyStr) (validators : Bool) : List PyStr :=
  [toL "pkg/database/" ++ m ++ toL ".go",
   toL "internal/modules/" ++ m ++ toL "/dtos/" ++ m ++ toL "_dto.go",
   toL "internal/modules/" ++ m ++ toL "/usecases/" ++ m ++ toL "_usecase.go",
   toL "internal/modules/" ++ m ++ toL "/controllers/" ++ m ++ toL "_controller.go",
   toL "internal/modules/" ++ m ++ toL "/init.go"] ++
  (if validators then
    [toL "internal/modules/" ++ m ++ toL "/validators/" ++ m ++ toL "_validator.go"]
   else [])

/-- Paths of the files written by `LaravelGenerator.generate`
(module-generator.py:545-592). -/
def laravelArtifactPaths (m e : PyStr) : List PyStr :=
  [toL "app/Models/" ++ e ++ toL ".php",
   toL "database/migrations/create_" ++ pluralize m ++ toL "_table.php",
   toL "app/Http/Controllers/" ++ e ++ toL "Controller.php",
   toL "app/Http/Requests/" ++ e ++ toL "Request.php",
   toL "app/Http/Resources/" ++ e ++ toL "Resource.php",
   toL "app/UseCases/" ++ e ++ toL "/Create" ++ e ++ toL "UseCase.php",
   toL "app/UseCases/" ++ e ++ toL "/Update" ++ e ++ toL "UseCase.php",
   toL "app/UseCases/" ++ e ++ toL "/Delete" ++ e ++ toL "UseCase.php"]

/-- Paths of the files written by `ReactGenerator.generate`
(module-generator.py:827-865). -/
def reactArtifactPaths (m e : PyStr) : List PyStr :=
  [toL "src/features/" ++ m ++ toL "/types.ts",
   toL "src/features/" ++ m ++ toL "/api.ts",
   toL "src/features/" ++ m ++ toL "/hooks.ts",
   toL "src/features/" ++ m ++ toL "/components/" ++ e ++ toL "List.tsx",
   toL "src/features/" ++ m ++ toL "/components/" ++ e ++ toL "Form.tsx",
   toL "src/features/" ++ m ++ toL "/index.ts"]

/-- Paths of the files written by `FlutterGenerator.generate`
(module-generator.py:1083-1111). -/
def flutterArtifactPaths (m : PyStr) : List PyStr :=
  [toL "lib/features/" ++ m ++ toL "/data/models/" ++ m ++ toL "_model.dart",
   toL "lib/features/" ++ m ++ toL "/data/repositories/" ++ m ++ toL "_repository.dart",
   toL "lib/features/" ++ m ++ toL "/presentation/providers/" ++ m ++ toL "_provider.dart",
   toL "lib/features/" ++ m ++ toL "/presentation/screens/" ++ m ++ toL "_list_screen.dart"]

/-- Keys of the `GENERATORS` registry (module-generator.py:1260-1265). -/
def generatorKeys : List PyStr := [toL "go", toL "laravel", toL "react", toL "flutter"]

/-- The generation pipeline as driven by `main` (module-generator.py:1279-1297):
the stack choice is validated against the registry before any generator is
constructed or any artifact is produced (argparse `choices=GENERATORS.keys()`);
for a registered stack the selected generator's `generate` method produces its
full artifact set.  Modelled as the list of artifact paths produced, `none`
when the stack is unsupported.  The field string and project identifier never
influence which artifacts exist, and processing them cannot fail
(`parse_fields`, `gorm_type` and `migration_type` are total functions with
silent defaults), so a registered stack always yields its full set. -/
def generateArtifactPaths (stack name _fields_str _project : PyStr)
    (validators : Bool) : Option (List PyStr) :=
  if stack = toL "go" then some (goArtifactPaths (moduleNameOf name) validators)
  else if stack = toL "laravel" then
    some (laravelArtifactPaths (moduleNameOf name) (entityNameOf name))
  else if stack = toL "react" then
    some (reactArtifactPaths (moduleNameOf name) (entityNameOf name))
  else if stack = toL "flutter" then
    some (flutterArtifactPaths (moduleNameOf name))
  else none

/-- Search-field selection as the spec states it (spec section 4.4): the first
field, in declared order, whose source type is the stack's plain string type
and whose name does not end in `_id`; fixed fallback `name` when no field
qualifies. -/
def searchFieldSpec (stringType : PyStr) (fields : List FieldDesc) : PyStr :=
  match fields.find? (fun f => f.ty == stringType && ! pyEndsWith (toL "_id") f.name) with
  | some f => f.name
  | none => toL "name"

/-- Per-token parsing as claim C2 states it: trim the token, skip it when
empty, mark the field optional when the token carries the trailing `?`
optionality marker and strip the marker, split at the first `:` into name
(before) and type (after), default the type when `:` is absent. -/
def specFieldToken (default : PyStr) (tok : PyStr) : Option FieldDesc :=
  let t := pyStrip tok
  if t = [] then none
  else
    let req := ! pyEndsWith (toL "?") t
    let core := pyRstrip (ch '?') t
    if core.contains (ch ':') then
      some ⟨pyStrip (core.takeWhile (fun c => c != ch ':')),
            pyStrip ((core.dropWhile (fun c => c != ch ':')).tail), req⟩
    else
      some ⟨pyStrip core, pyStrip default, req⟩

/-- Field-specification parsing as claim C2 states it: split on commas,
parse each token, drop empty tokens, preserve input order. -/
def parseFieldsSpec (default : PyStr) (s : PyStr) : List FieldDesc :=
  (pySplit (ch ',') s).filterMap (specFieldToken default)

/-- First character upper-cased, remaining characters untouched. -/
def capFirst : PyStr → PyStr
  | [] => []
  | c :: cs => upperChar c :: cs

/-- Pascal-casing as claim C4 states it: concatenate the nonempty segments
obtained by splitting on `-` and `_`, capitalizing each segment's first
character (and touching nothing else). -/
def pascalClaimed (name : PyStr) : PyStr :=
  (((pySplit (ch '_') (pyReplace (ch '-') (ch '_') name)).filter
      (fun w => ! w.isEmpty)).map capFirst).flatten

/-- Pascal-casing as claim C4 is amended: each nonempty segment contributes
its first character upper-cased and its remaining characters lower-cased
(Python `str.capitalize`); empty segments are skipped. -/
def pascalAmended (name : PyStr) : PyStr :=
  (((pySplit (ch '_') (pyReplace (ch '-') (ch '_') name)).filter
      (fun w => ! w.isEmpty)).map pyCapitalize).flatten

/-! Helper lemmas shared by the claim theorems. -/

/-- `breakAtFirst` in terms of `takeWhile`, `contains` and `dropWhile`. -/
theorem breakAtFirst_eq (sep : Nat) (l : PyStr) :
    breakAtFirst sep l =
      (l.takeWhile (fun c => c != sep),
       if l.contains sep then some ((l.dropWhile (fun c => c != sep)).tail) else none) := by
  induction l with
  | nil => simp [breakAtFirst]
  | cons c cs ih =>
    by_cases h : c = sep
    · subst h
      simp [breakAtFirst, List.takeWhile_cons, List.dropWhile_cons]
    · simp [breakAtFirst, h, ih, List.takeWhile_cons, List.dropWhile_cons,
        List.contains_cons, bne_iff_ne, Ne.symm h]

/-- The code's per-token parser agrees with the claim-side description. -/
theorem parseFieldToken_eq_spec (d tok : PyStr) :
    parseFieldToken d tok = specFieldToken d tok := by
  unfold parseFieldToken specFieldToken
  by_cases h : pyStrip tok = []
  · simp [h]
  · rw [if_neg h, if_neg h]
    simp only [breakAtFirst_eq]
    by_cases hc : ch ':' ∈ pyRstrip (ch '?') (pyStrip tok)
    · have hc2 : List.contains (pyRstrip (ch '?') (pyStrip tok)) (ch ':') = true := by
        simpa using hc
      simp [hc, hc2]
    · have hc2 : List.contains (pyRstrip (ch '?') (pyStrip tok)) (ch ':') = false := by
        simpa using hc
      have htw : List.takeWhile (fun c => c != ch ':') (pyRstrip (ch '?') (pyStrip tok)) =
          pyRstrip (ch '?') (pyStrip tok) :=
        List.takeWhile_eq_self_iff.mpr (fun x hx => by
          simp only [bne_iff_ne, ne_eq]
          intro hxe
          exact hc (hxe ▸ hx))
      simp [hc, hc2, htw]

/-- Empty segments contribute nothing to the capitalized concatenation. -/
theorem flatten_map_pyCapitalize (ws : List PyStr) :
    (((ws.filter (fun w => ! w.isEmpty)).map pyCapitalize)).flatten =
      ((ws.map pyCapitalize)).flatten := by
  induction ws with
  | nil => rfl
  | cons w ws ih =>
    cases w with
    | nil => simpa [pyCapitalize] using ih
    | cons c cs => simp [List.filter_cons, ih, pyCapitalize]

/-- Truncated quotient plus remainder bump is the ceiling `(m + n - 1) / n`. -/
theorem natCeilDiv (m n : Nat) (hn : 0 < n) :
    m / n + (if 0 < m % n then 1 else 0) = (m + n - 1) / n := by
  obtain ⟨q, r, rfl, hr⟩ : ∃ q r, m = n * q + r ∧ r < n :=
    ⟨m / n, m % n, (Nat.div_add_mod m n).symm, Nat.mod_lt m hn⟩
  have hd : (n * q + r) / n = q := by
    rw [Nat.mul_add_div hn, Nat.div_eq_of_lt hr, Nat.add_zero]
  have hmod : (n * q + r) % n = r := by
    rw [Nat.mul_add_mod, Nat.mod_eq_of_lt hr]
  have h2 : n * q + r + n - 1 = n * q + (r + n - 1) := by
    rw [Nat.add_assoc, Nat.add_sub_assoc (by omega)]
  rw [hd, hmod, h2, Nat.mul_add_div hn]
  by_cases hr0 : 0 < r
  · rw [if_pos hr0]
    have h3 : (r + n - 1) / n = 1 := Nat.div_eq_of_lt_le (by omega) (by omega)
    rw [h3]
  · rw [if_neg hr0]
    have h3 : (r + n - 1) / n = 0 := Nat.div_eq_of_lt (by omega)
    rw [h3]

/-- Go's truncated division agrees with `Nat` division on nonnegative values. -/
theorem tdiv_natCast (m n : Nat) : Int.tdiv (↑m) (↑n) = ((m / n : Nat) : Int) := rfl

/-- Go's remainder agrees with the `Nat` remainder on nonnegative values. -/
theorem tmod_natCast (m n : Nat) : Int.tmod (↑m) (↑n) = ((m % n : Nat) : Int) := rfl

/-- Upper-casing factors through lower-casing on ASCII code points. -/
theorem upperChar_lowerChar (c : Nat) : upperChar (lowerChar c) = upperChar c := by
  unfold lowerChar upperChar
  split_ifs <;> omega

/-- Being a non-letter separator is invariant under lower-casing. -/
theorem lowerChar_eq_sep (sep c : Nat) (hs : ¬ (97 ≤ sep ∧ sep ≤ 122))
    (hs2 : ¬ (65 ≤ sep ∧ sep ≤ 90)) :
    lowerChar c = sep ↔ c = sep := by
  unfold lowerChar
  split_ifs with h <;> constructor <;> intro he <;> omega

/-- Lower-casing commutes with the dash-to-underscore replacement. -/
theorem pyLower_pyReplace_dash (s : PyStr) :
    pyLower (pyReplace (ch '-') (ch '_') s) =
      (pyLower s).map (fun c => if c = ch '-' then ch '_' else c) := by
  unfold pyLower pyReplace
  rw [List.map_map, List.map_map]
  apply List.map_congr_left
  intro c _
  have h45 : ch '-' = 45 := rfl
  have h95 : ch '_' = 95 := rfl
  simp only [Function.comp, h45, h95]
  unfold lowerChar
  split_ifs <;> omega

/-- A Python split never returns an empty chunk list. -/
theorem pySplit_ne_nil (sep : Nat) (l : PyStr) : pySplit sep l ≠ [] := by
  cases l with
  | nil => simp [pySplit]
  | cons c cs =>
    simp only [pySplit]
    split_ifs <;> simp

/-- Splitting on a non-letter separator maps case-equivalent strings to
pointwise case-equivalent chunk lists. -/
theorem pySplit_congr (sep : Nat) (hs : ¬ (97 ≤ sep ∧ sep ≤ 122))
    (hs2 : ¬ (65 ≤ sep ∧ sep ≤ 90)) :
    ∀ l₁ l₂ : PyStr, pyLower l₁ = pyLower l₂ →
      List.Forall₂ (fun w₁ w₂ => pyLower w₁ = pyLower w₂) (pySplit sep l₁) (pySplit sep l₂) := by
  intro l₁
  induction l₁ with
  | nil =>
    intro l₂ h
    cases l₂ with
    | nil => exact List.Forall₂.cons rfl List.Forall₂.nil
    | cons d ds => simp [pyLower] at h
  | cons c cs ih =>
    intro l₂ h
    cases l₂ with
    | nil => simp [pyLower] at h
    | cons d ds =>
      simp only [pyLower, List.map_cons, List.cons.injEq] at h
      obtain ⟨hc, hcs⟩ := h
      have ihr := ih ds hcs
      by_cases hcd : c = sep
      · have hdd : d = sep := by
          rw [← lowerChar_eq_sep sep d hs hs2, ← hc, lowerChar_eq_sep sep c hs hs2]
          exact hcd
        simp only [pySplit, if_pos hcd, if_pos hdd]
        exact List.Forall₂.cons rfl ihr
      · have hdd : ¬ d = sep := by
          rw [← lowerChar_eq_sep sep d hs hs2, ← hc, lowerChar_eq_sep sep c hs hs2]
          exact hcd
        simp only [pySplit, if_neg hcd, if_neg hdd]
        cases e1 : pySplit sep cs with
        | nil => exact absurd e1 (pySplit_ne_nil sep cs)
        | cons w₁ ws₁ =>
          cases e2 : pySplit sep ds with
          | nil => exact absurd e2 (pySplit_ne_nil sep ds)
          | cons w₂ ws₂ =>
            rw [e1, e2] at ihr
            cases ihr with
            | cons hw hws =>
              simp only [List.headI, List.tail]
              refine List.Forall₂.cons ?_ hws
              simp only [pyLower, List.map_cons, List.cons.injEq]
              exact ⟨hc, hw⟩

/-- Python `capitalize` identifies case-equivalent strings. -/
theorem pyCapitalize_congr (w₁ w₂ : PyStr) (h : pyLower w₁ = pyLower w₂) :
    pyCapitalize w₁ = pyCapitalize w₂ := by
  cases w₁ with
  | nil =>
    cases w₂ with
    | nil => rfl
    | cons d ds => simp [pyLower] at h
  | cons c cs =>
    cases w₂ with
    | nil => simp [pyLower] at h
    | cons d ds =>
      simp only [pyLower, List.map_cons, List.cons.injEq] at h
      obtain ⟨hc, hcs⟩ := h
      simp only [pyCapitalize, List.cons.injEq]
      constructor
      · rw [← upperChar_lowerChar c, hc, upperChar_lowerChar]
      · exact hcs

/-- Mapping a function constant on each related pair and flattening gives
equal results on `Forall₂`-related chunk lists. -/
theorem flatten_map_congr {R : PyStr → PyStr → Prop} (f : PyStr → PyStr)
    (hf : ∀ w₁ w₂, R w₁ w₂ → f w₁ = f w₂) :
    ∀ {ws₁ ws₂ : List PyStr}, List.Forall₂ R ws₁ ws₂ →
      (ws₁.map f).flatten = (ws₂.map f).flatten := by
  intro ws₁ ws₂ h
  induction h with
  | nil => rfl
  | cons hw _ ih => simp only [List.map_cons, List.flatten_cons, hf _ _ hw, ih]

/-- Pascal-casing identifies names that agree up to ASCII letter case. -/
theorem to_pascal_case_congr (n₁ n₂ : PyStr) (h : pyLower n₁ = pyLower n₂) :
    to_pascal_case n₁ = to_pascal_case n₂ := by
  unfold to_pascal_case
  have h2 : pyLower (pyReplace (ch '-') (ch '_') n₁) =
      pyLower (pyReplace (ch '-') (ch '_') n₂) := by
    rw [pyLower_pyReplace_dash, pyLower_pyReplace_dash, h]
  exact flatten_map_congr pyCapitalize pyCapitalize_congr
    (pySplit_congr (ch '_') (by decide) (by decide) _ _ h2)

/-! The claim theorems. -/

/-- C1 counterexample: the claim fails for the Laravel stack.  With the
declared fields `[("user_id","string",required), ("title","string",required)]`
the claimed selection rule (first plain-string field whose name does not end
in `_id`) picks `title`, but the Laravel controller emitted by the generator
always searches the fixed column `name`. -/
theorem claim1_counterexample :
    laravelSearchColumn
        [⟨toL "user_id", toL "string", true⟩, ⟨toL "title", toL "string", true⟩] = toL "name" ∧
    searchFieldSpec (toL "string")
        [⟨toL "user_id", toL "string", true⟩, ⟨toL "title", toL "string", true⟩] = toL "title" ∧
    laravelSearchColumn
        [⟨toL "user_id", toL "string", true⟩, ⟨toL "title", toL "string", true⟩] ≠
      searchFieldSpec (toL "string")
        [⟨toL "user_id", toL "string", true⟩, ⟨toL "title", toL "string", true⟩] := by
  refine ⟨by decide, by decide, by decide⟩

/-- C1 (amended): the Go stack's generated list usecase selects as search
field the first declared field whose source type token is `string` and whose
name does not end in `_id`, falling back to the fixed name `name` when no
field qualifies (even if no such field was declared); on
`[("user_id","string",required), ("title","string",required)]` it selects
`title`.  The Laravel stack's generated controller does not apply this rule:
it always searches the fixed column `name` whatever the declared fields. -/
theorem claim1_search_field_selection :
    (∀ fields : List FieldDesc, goSearchField fields = searchFieldSpec (toL "string") fields) ∧
    (∀ fields : List FieldDesc, laravelSearchColumn fields = toL "name") ∧
    goSearchField [⟨toL "user_id", toL "string", true⟩, ⟨toL "title", toL "string", true⟩] =
      toL "title" := by
  exact ⟨fun _ => rfl, fun _ => rfl, by decide⟩

/-- C2: for every stack default and every field-specification string,
`parse_fields` splits on commas, trims each token, silently skips empty
tokens, treats a trailing `?` as marking the field optional and strips the
marker, splits the rest at the first `:` into name and type (defaulting the
type to the stack's default string-type spelling when `:` is absent), and
returns the descriptors in input order; in particular
`"name:string,price:int64?"` yields exactly `[(name,string,required),
(price,int64,optional)]` and `"a,,b:int"` yields exactly two descriptors
with no error. -/
theorem claim2_parse_fields :
    (∀ d s : PyStr, parse_fields d s = parseFieldsSpec d s) ∧
    parse_fields defaultTypeGo (toL "name:string,price:int64?") =
      [⟨toL "name", toL "string", true⟩, ⟨toL "price", toL "int64", false⟩] ∧
    parse_fields defaultTypeGo (toL "a,,b:int") =
      [⟨toL "a", toL "string", true⟩, ⟨toL "b", toL "int", true⟩] ∧
    parse_fields defaultTypeFlutter (toL "a,,b:int") =
      [⟨toL "a", toL "String", true⟩, ⟨toL "b", toL "int", true⟩] := by
  refine ⟨?_, by decide, by decide, by decide⟩
  · intro d s
    unfold parse_fields parseFieldsSpec
    rw [show parseFieldToken d = specFieldToken d from funext (parseFieldToken_eq_spec d)]

/-- C3: in the generated list response, total-pages is the integer division
of the total by the page size plus one more when the remainder is nonzero —
equivalently, on nonnegative counts and positive page sizes, the ceiling
`(total + perPage - 1) / perPage`; page defaults to 1 and page-size to 20
exactly when the supplied value is less than 1; `total=45, perPage=20` gives
3 and `total=40, perPage=20` gives 2. -/
theorem claim3_pagination :
    (∀ m n : Nat, 0 < n →
      goTotalPages (↑m) (↑n) = ((m + n - 1) / n : Nat)) ∧
    (∀ page : Int, page < 1 → goPageDefault page = 1) ∧
    (∀ page : Int, 1 ≤ page → goPageDefault page = page) ∧
    (∀ pp : Int, pp < 1 → goPerPageDefault pp = 20) ∧
    (∀ pp : Int, 1 ≤ pp → goPerPageDefault pp = pp) ∧
    goTotalPages 45 20 = 3 ∧ goTotalPages 40 20 = 2 := by
  refine ⟨?_, ?_, ?_, ?_, ?_, by decide, by decide⟩
  · intro m n hn
    unfold goTotalPages
    rw [tdiv_natCast, tmod_natCast, ← natCeilDiv m n hn]
    by_cases h : 0 < m % n
    · rw [if_pos (by exact_mod_cast h), if_pos h]
      push_cast
      ring
    · rw [if_neg (by exact_mod_cast h), if_neg h]
      simp
  · intro page h; simp [goPageDefault, h]
  · intro page h; simp [goPageDefault, show ¬ page < 1 by omega]
  · intro pp h; simp [goPerPageDefault, h]
  · intro pp h; simp [goPerPageDefault, show ¬ pp < 1 by omega]

/-- C3 witness: the pagination properties instantiated at concrete values. -/
theorem claim3_pagination_witness :
    goTotalPages ((45 : Nat) : Int) ((20 : Nat) : Int) = (((45 + 20 - 1) / 20 : Nat) : Int) ∧
    goPageDefault 0 = 1 ∧ goPageDefault 3 = 3 ∧
    goPerPageDefault (-7) = 20 ∧ goPerPageDefault 25 = 25 :=
  ⟨claim3_pagination.1 45 20 (by decide),
   claim3_pagination.2.1 0 (by decide),
   claim3_pagination.2.2.1 3 (by decide),
   claim3_pagination.2.2.2.1 (-7) (by decide),
   claim3_pagination.2.2.2.2.1 25 (by decide)⟩

/-- C4 counterexample: the claim fails on input `"userProfile"`.  The claimed
description (only each segment's first character is capitalized, nothing else
changes, no re-split on case boundaries) yields `"UserProfile"`, but the
code's `str.capitalize` also lower-cases the rest of the segment and yields
`"Userprofile"`. -/
theorem claim4_counterexample :
    pascalClaimed (toL "userProfile") = toL "UserProfile" ∧
    to_pascal_case (toL "userProfile") = toL "Userprofile" ∧
    to_pascal_case (toL "userProfile") ≠ pascalClaimed (toL "userProfile") := by
  refine ⟨by decide, by decide, by decide⟩

/-- C4 (amended): for every input name, the pascal-case transform returns the
concatenation, with no separator, of the segments obtained by splitting on
`-` and `_`, where each segment's first character is upper-cased and its
remaining characters are lower-cased (Python `str.capitalize`) and empty
segments are skipped; `pascal("user_profile") = "UserProfile"` (and likewise
for `"USER_PROFILE"`), with no re-splitting on case boundaries. -/
theorem claim4_pascal_case :
    (∀ name : PyStr, to_pascal_case name = pascalAmended name) ∧
    to_pascal_case (toL "user_profile") = toL "UserProfile" ∧
    to_pascal_case (toL "USER_PROFILE") = toL "UserProfile" := by
  refine ⟨?_, by decide, by decide⟩
  · intro name
    unfold to_pascal_case pascalAmended
    exact (flatten_map_pyCapitalize _).symm

/-- C5: every artifact that lists the entity's fields declares them in the
parsed input order — each artifact's `i`-th field line is rendered from the
`i`-th parsed field, across the Go model and DTOs, the Laravel fillable list,
migration, rules and resource, the React interfaces and form, and the Flutter
model; and for `"sku:string,qty:int64?"` the `sku` line precedes the `qty`
line in each of them. -/
theorem claim5_field_order :
    (∀ (fields : List FieldDesc) (i : Nat),
      (goModelFieldLines fields)[i]? = (fields[i]?).map goModelFieldLine ∧
      (goCreateFieldLines fields)[i]? = (fields[i]?).map goCreateFieldLine ∧
      (goUpdateFieldLines fields)[i]? = (fields[i]?).map goUpdateFieldLine ∧
      (goResponseFieldLines fields)[i]? = (fields[i]?).map goResponseFieldLine ∧
      (laravelFillableItems fields)[i]? = (fields[i]?).map laravelFillableItem ∧
      (laravelMigrationColumnLines fields)[i]? = (fields[i]?).map laravelMigrationColumnLine ∧
      (laravelRuleLines fields)[i]? = (fields[i]?).map laravelRuleLine ∧
      (laravelResourceLines fields)[i]? = (fields[i]?).map laravelResourceLine ∧
      (reactTypeFieldLines fields)[i]? = (fields[i]?).map reactTypeFieldLine ∧
      (reactCreateFieldLines fields)[i]? = (fields[i]?).map reactTypeFieldLine ∧
      (reactUpdateFieldLines fields)[i]? = (fields[i]?).map reactUpdateFieldLine ∧
      (reactFormInputBlocks fields)[i]? = (fields[i]?).map reactFormInputBlock ∧
      (flutterModelFieldLines fields)[i]? = (fields[i]?).map flutterModelFieldLine) ∧
    (parse_fields defaultTypeGo (toL "sku:string,qty:int64?")).map FieldDesc.name =
      [toL "sku", toL "qty"] ∧
    goModelFieldLines (parse_fields defaultTypeGo (toL "sku:string,qty:int64?")) =
      [toL "\tSku string `gorm:\"type:varchar(255)\" json:\"sku\"`",
       toL "\tQty *int64 `gorm:\"type:bigint\" json:\"qty\"`"] ∧
    reactTypeFieldLines (parse_fields defaultTypeGo (toL "sku:string,qty:int64?")) =
      [toL "  sku: string;", toL "  qty?: int64;"] ∧
    laravelMigrationColumnLines (parse_fields defaultTypeGo (toL "sku:string,qty:int64?")) =
      [toL "            $table->string(\x27sku\x27);",
       toL "            $table->string(\x27qty\x27)->nullable();"] ∧
    flutterModelFieldLines (parse_fields defaultTypeFlutter (toL "sku:string,qty:int64?")) =
      [toL "  final string sku;", toL "  final int64? qty;"] := by
  refine ⟨?_, by decide, by decide, by decide, by decide, by decide⟩
  · intro fields i
    refine ⟨?_, ?_, ?_, ?_, ?_, ?_, ?_, ?_, ?_, ?_, ?_, ?_, ?_⟩ <;>
      simp [goModelFieldLines, goCreateFieldLines, goUpdateFieldLines, goResponseFieldLines,
        laravelFillableItems, laravelMigrationColumnLines, laravelRuleLines,
        laravelResourceLines, reactTypeFieldLines, reactCreateFieldLines,
        reactUpdateFieldLines, reactFormInputBlocks, flutterModelFieldLines]

/-- C6: for the stacks that emit routing or client request-path artifacts
(Go, React, Flutter), the collection path embedded in each artifact is the
kebab-case plural of the module name — the same derivation in every artifact —
and the single-resource path appends an identifier placeholder segment to the
collection path; entity name `"order_item"` yields `/order-items` in each. -/
theorem claim6_route_paths :
    (∀ name : PyStr,
      goRouteSeg (moduleNameOf name) = reactRouteSeg (moduleNameOf name) ∧
      reactRouteSeg (moduleNameOf name) = flutterRouteSeg (moduleNameOf name) ∧
      goRouteSeg (moduleNameOf name) = to_kebab_case (pluralize (pyLower name))) ∧
    (∀ m : PyStr, goResourcePath m = goCollectionPath m ++ toL "/:id") ∧
    (∀ m id : PyStr, reactResourcePath m id = reactBaseURL m ++ toL "/" ++ id) ∧
    (∀ m id : PyStr, flutterResourcePath m id = flutterCollectionPath m ++ toL "/" ++ id) ∧
    goCollectionPath (moduleNameOf (toL "order_item")) = toL "/order-items" ∧
    reactBaseURL (moduleNameOf (toL "order_item")) = toL "/order-items" ∧
    flutterCollectionPath (moduleNameOf (toL "order_item")) = toL "/order-items" := by
  exact ⟨fun _ => ⟨rfl, rfl, rfl⟩, fun _ => rfl, fun _ _ => rfl, fun _ _ => rfl,
    by decide, by decide, by decide⟩

/-- C7: generation succeeds exactly when the requested stack is one of the
registered keys `go`, `laravel`, `react`, `flutter` (the stack check happens
before any artifact is produced, and an unregistered stack such as `remix`
produces nothing); for every registered stack and arbitrary name, field
string and project, the full artifact set of that stack is produced — the
embedded parser, type lookups and renderers are total functions, so no input
can make a registered stack fail. -/
theorem claim7_stack_validation :
    (∀ (stack name fs proj : PyStr) (v : Bool),
      (generateArtifactPaths stack name fs proj v).isSome = true ↔ stack ∈ generatorKeys) ∧
    (∀ (name fs proj : PyStr) (v : Bool),
      generateArtifactPaths (toL "go") name fs proj v =
        some (goArtifactPaths (moduleNameOf name) v) ∧
      generateArtifactPaths (toL "laravel") name fs proj v =
        some (laravelArtifactPaths (moduleNameOf name) (entityNameOf name)) ∧
      generateArtifactPaths (toL "react") name fs proj v =
        some (reactArtifactPaths (moduleNameOf name) (entityNameOf name)) ∧
      generateArtifactPaths (toL "flutter") name fs proj v =
        some (flutterArtifactPaths (moduleNameOf name))) ∧
    generateArtifactPaths (toL "remix") (toL "product") (toL "name:string") (toL "") false =
      none := by
  refine ⟨?_, fun name fs proj v => ⟨rfl, rfl, rfl, rfl⟩, by decide⟩
  · intro stack name fs proj v
    unfold generateArtifactPaths generatorKeys
    split_ifs with h1 h2 h3 h4 <;> simp_all

/-- C8: `pluralize` applies its suffix rules in priority order — a trailing
`y` is dropped and `ies` appended; otherwise a trailing `s`, `x`, `ch` or
`sh` gets `es` appended; otherwise `s` is appended — and
`category ↦ categories`, `box ↦ boxes`, `bus ↦ buses`, `product ↦ products`. -/
theorem claim8_pluralize :
    (∀ s : PyStr, pyEndsWith (toL "y") s = true →
      pluralize s = s.dropLast ++ toL "ies") ∧
    (∀ s : PyStr, pyEndsWith (toL "y") s = false →
      (pyEndsWith (toL "s") s = true ∨ pyEndsWith (toL "x") s = true ∨
        pyEndsWith (toL "ch") s = true ∨ pyEndsWith (toL "sh") s = true) →
      pluralize s = s ++ toL "es") ∧
    (∀ s : PyStr, pyEndsWith (toL "y") s = false → pyEndsWith (toL "s") s = false →
      pyEndsWith (toL "x") s = false → pyEndsWith (toL "ch") s = false →
      pyEndsWith (toL "sh") s = false → pluralize s = s ++ toL "s") ∧
    pluralize (toL "category") = toL "categories" ∧
    pluralize (toL "box") = toL "boxes" ∧
    pluralize (toL "bus") = toL "buses" ∧
    pluralize (toL "product") = toL "products" := by
  refine ⟨?_, ?_, ?_, by decide, by decide, by decide, by decide⟩
  · intro s h
    simp [pluralize, h]
  · intro s h1 h2
    have hd : pyEndsWith (toL "s") s ∨ pyEndsWith (toL "x") s ∨
        pyEndsWith (toL "ch") s ∨ pyEndsWith (toL "sh") s := by
      rcases h2 with h | h | h | h <;> simp [h]
    simp [pluralize, h1, hd]
  · intro s h1 h2 h3 h4 h5
    simp [pluralize, h1, h2, h3, h4, h5]

/-- C8 witness: the three suffix rules instantiated at concrete names. -/
theorem claim8_pluralize_witness :
    pluralize (toL "category") = (toL "category").dropLast ++ toL "ies" ∧
    pluralize (toL "box") = toL "box" ++ toL "es" ∧
    pluralize (toL "product") = toL "product" ++ toL "s" :=
  ⟨claim8_pluralize.1 (toL "category") (by decide),
   claim8_pluralize.2.1 (toL "box") (by decide) (Or.inr (Or.inl (by decide))),
   claim8_pluralize.2.2.1 (toL "product") (by decide) (by decide) (by decide) (by decide)
     (by decide)⟩

/-- C9: each stack's type-mapping lookup is total — it returns the mapped
target token for each key of its finite table and the stack's fixed default
(`varchar(255)` for Go, `string` for Laravel) for every unmapped token,
never an error. -/
theorem claim9_type_mapping_total :
    (∀ t : PyStr, gormTypeMap.find? (fun p => p.1 == t) = none →
      gorm_type t = toL "varchar(255)") ∧
    (∀ p ∈ gormTypeMap, gorm_type p.1 = p.2) ∧
    (∀ t : PyStr, migrationTypeMap.find? (fun p => p.1 == t) = none →
      migration_type t = toL "string") ∧
    (∀ p ∈ migrationTypeMap, migration_type p.1 = p.2) ∧
    gorm_type (toL "uuid") = toL "varchar(255)" ∧
    migration_type (toL "uuid") = toL "string" := by
  refine ⟨?_, by decide, ?_, by decide, by decide, by decide⟩
  · intro t h; simp [gorm_type, h]
  · intro t h; simp [migration_type, h]

/-- C9 witness: the unmapped-token defaults instantiated at `uuid`, which is
in neither table. -/
theorem claim9_type_mapping_witness :
    gorm_type (toL "uuid") = toL "varchar(255)" ∧
    migration_type (toL "uuid") = toL "string" :=
  ⟨claim9_type_mapping_total.1 (toL "uuid") (by decide),
   claim9_type_mapping_total.2.2.1 (toL "uuid") (by decide)⟩

/-- C10: two entity names that agree up to ASCII letter case drive identical
generation — every name-derived value factors through the lower-cased module
name and the capitalize-normalized pascal entity name, so the module name,
the entity name and the produced artifact set coincide for any stack, field
string, project and options. -/
theorem claim10_case_insensitive :
    ∀ (stack n₁ n₂ fs proj : PyStr) (v : Bool), pyLower n₁ = pyLower n₂ →
      moduleNameOf n₁ = moduleNameOf n₂ ∧
      entityNameOf n₁ = entityNameOf n₂ ∧
      generateArtifactPaths stack n₁ fs proj v = generateArtifactPaths stack n₂ fs proj v := by
  intro stack n₁ n₂ fs proj v h
  have hm : moduleNameOf n₁ = moduleNameOf n₂ := h
  have he : entityNameOf n₁ = entityNameOf n₂ := to_pascal_case_congr n₁ n₂ h
  refine ⟨hm, he, ?_⟩
  unfold generateArtifactPaths
  rw [hm, he]

/-- C10 witness: `"Product"` and `"PRODUCT"` generate identically. -/
theorem claim10_case_insensitive_witness :
    moduleNameOf (toL "Product") = moduleNameOf (toL "PRODUCT") ∧
    entityNameOf (toL "Product") = entityNameOf (toL "PRODUCT") ∧
    generateArtifactPaths (toL "go") (toL "Product") (toL "name:string") (toL "") false =
      generateArtifactPaths (toL "go") (toL "PRODUCT") (toL "name:string") (toL "") false :=
  claim10_case_insensitive (toL "go") (toL "Product") (toL "PRODUCT") (toL "name:string")
    (toL "") false (by decide)

end ModuleGenerator
